import Mathlib

/- Shallow embedding of the identity-resolution and news-scoring core of the
   AIProfileGeneratorLinkedIn repository (backend/linkedin_scraper.py and
   backend/news_collector.py).

   Python string primitives (`in`, `str.find`, `str.split`, `str.replace`,
   `str.lower`, `str.strip`, `str.title`, `urllib.parse.unquote`) are modelled
   as executable functions on `List Char`.  The ASCII behaviour of these
   primitives is modelled exactly; that covers every string constant and every
   string shape the embedded program manipulates.  `datetime` arithmetic is
   modelled by passing the already-computed day difference
   `(datetime.now() - pub_date).days` as an `Option Int` argument (parse
   failure, i.e. the `except` branch, is `none`).  Network traffic is modelled
   by response oracles. -/

/-- Scanner behind `pyFind`: returns the first absolute index (the `Nat`
argument carries the index of the head of the remaining list) at which `pat`
occurs as a leading block of the remaining list. -/
def pyFindAux (pat : List Char) : List Char → Nat → Option Nat
  | [], i => if pat.isPrefixOf [] then some i else none
  | c :: rest, i => if pat.isPrefixOf (c :: rest) then some i else pyFindAux pat rest (i + 1)

/-- Python `s.find(pat, start)`: lowest index `≥ start` at which `pat` occurs
in `s`; `none` models Python's `-1` result. -/
def pyFind (pat l : List Char) (start : Nat) : Option Nat :=
  pyFindAux pat (l.drop start) start

/-- Python `sub in s` (substring containment) on strings. -/
def pyIn (sub s : String) : Bool :=
  (pyFind sub.data s.data 0).isSome

/-- Python `str.lower()` (ASCII model). -/
def pyLower (s : String) : String := ⟨s.data.map Char.toLower⟩

/-- Python `str.strip()`: drop whitespace from both ends. -/
def pyStrip (s : String) : String :=
  ⟨((s.data.dropWhile Char.isWhitespace).reverse.dropWhile Char.isWhitespace).reverse⟩

/-- Helper for `pySplitWs`; the accumulator holds the current word reversed. -/
def pySplitWsAux : List Char → List Char → List String
  | [], acc => if acc = [] then [] else [⟨acc.reverse⟩]
  | c :: rest, acc =>
    if c.isWhitespace then
      if acc = [] then pySplitWsAux rest []
      else ⟨acc.reverse⟩ :: pySplitWsAux rest []
    else pySplitWsAux rest (c :: acc)

/-- Python `str.split()` with no argument: split on whitespace runs, dropping
empty pieces. -/
def pySplitWs (s : String) : List String := pySplitWsAux s.data []

/-- Lookup in a Python `dict` built from an ordered list of key/value pairs
(a dict literal): later bindings of a key overwrite earlier ones, so lookup
returns the value of the LAST binding of the key. -/
def dictLookup {α β : Type} [BEq α] (m : List (α × β)) (k : α) : Option β :=
  (m.reverse.find? (fun p => p.1 == k)).map (fun p => p.2)

/-- The `manual_database` dict literal of
`LinkedInScraper.check_manual_database`, in source order. -/
def manual_database : List ((String × String) × String) :=
  [ (("satya nadella", "microsoft"), "https://www.linkedin.com/in/satyanadella/"),
    (("satya nadella", ""), "https://www.linkedin.com/in/satyanadella/"),
    (("tim cook", "apple"), "https://www.linkedin.com/in/tim-cook-1b4ee/"),
    (("tim cook", ""), "https://www.linkedin.com/in/tim-cook-1b4ee/"),
    (("sundar pichai", "google"), "https://www.linkedin.com/in/sundarpichai/"),
    (("sundar pichai", ""), "https://www.linkedin.com/in/sundarpichai/"),
    (("elon musk", "tesla"), "https://www.linkedin.com/in/elonmusk/"),
    (("elon musk", ""), "https://www.linkedin.com/in/elonmusk/"),
    (("jeff bezos", "amazon"), "https://www.linkedin.com/in/jeffreybezos/"),
    (("jeff bezos", ""), "https://www.linkedin.com/in/jeffreybezos/"),
    (("mark zuckerberg", "meta"), "https://www.linkedin.com/in/markzuckerberg/"),
    (("mark zuckerberg", "facebook"), "https://www.linkedin.com/in/markzuckerberg/"),
    (("mark zuckerberg", ""), "https://www.linkedin.com/in/markzuckerberg/"),
    (("reid hoffman", "linkedin"), "https://www.linkedin.com/in/reidhoffman/"),
    (("reid hoffman", ""), "https://www.linkedin.com/in/reidhoffman/"),
    (("jensen huang", "nvidia"), "https://www.linkedin.com/in/jenhsunhuang/"),
    (("jensen huang", ""), "https://www.linkedin.com/in/jenhsunhuang/"),
    (("melinda gates", ""), "https://www.linkedin.com/in/melindagates/"),
    (("melinda french gates", ""), "https://www.linkedin.com/in/melindagates/"),
    (("bill gates", ""), "https://www.linkedin.com/in/williamhgates/"),
    (("warren buffett", ""), "https://www.linkedin.com/in/warrenbuffett/"),
    (("richard branson", "virgin"), "https://www.linkedin.com/in/virginbranson/"),
    (("richard branson", ""), "https://www.linkedin.com/in/virginbranson/"),
    (("simon sinek", ""), "https://www.linkedin.com/in/simon-sinek-2609923/"),
    (("daniel pink", ""), "https://www.linkedin.com/in/danielpink/"),
    (("adam grant", ""), "https://www.linkedin.com/in/adamgrant/"),
    (("david ackley", "bts"), "https://www.linkedin.com/in/daveackley/"),
    (("david ackley", ""), "https://www.linkedin.com/in/daveackley/") ]

/-- `LinkedInScraper.check_manual_database`: exact dict lookup on
(name, company), then on (name, ""), then a scan of the dict items accepting a
same-name entry whose organization contains, or is contained in, the queried
organization. -/
def check_manual_database (person_name company_name : String) : Option String :=
  let name_lower := pyStrip (pyLower person_name)
  let company_lower := if company_name = "" then "" else pyStrip (pyLower company_name)
  match dictLookup manual_database (name_lower, company_lower) with
  | some url => some url
  | none =>
    match dictLookup manual_database (name_lower, "") with
    | some url => some url
    | none =>
      if company_lower ≠ "" then
        (manual_database.find? (fun p =>
          p.1.1 == name_lower && (pyIn company_lower p.1.2 || pyIn p.1.2 company_lower))).map
          (fun p => p.2)
      else none

/-- The Static Identity Table lookup as the spec's words describe it: first
hit wins among, in order, the exact normalized (name, organization) key, the
(name, "") key, and a partial-organization substring match (either direction)
among same-name entries; nothing otherwise.  Phases 1 and 2 are written as
first-match scans of the table, which is how the spec reads; the theorem for
C1 shows this coincides with the dict-semantics implementation. -/
def static_table_lookup_spec (person_name company_name : String) : Option String :=
  let name_lower := pyStrip (pyLower person_name)
  let company_lower := if company_name = "" then "" else pyStrip (pyLower company_name)
  match (manual_database.find? (fun p => p.1 == (name_lower, company_lower))).map (fun p => p.2) with
  | some url => some url
  | none =>
    match (manual_database.find? (fun p => p.1 == (name_lower, ""))).map (fun p => p.2) with
    | some url => some url
    | none =>
      if company_lower ≠ "" then
        (manual_database.find? (fun p =>
          p.1.1 == name_lower && (pyIn company_lower p.1.2 || pyIn p.1.2 company_lower))).map
          (fun p => p.2)
      else none

/-- The `nickname_map` dict literal of `LinkedInScraper.construct_linkedin_url`
(the URL Constructor), in source order. -/
def construct_nickname_map : List (String × String) :=
  [ ("david", "dave"), ("michael", "mike"), ("william", "bill"), ("robert", "bob"),
    ("richard", "rick"), ("james", "jim"), ("thomas", "tom"), ("christopher", "chris"),
    ("anthony", "tony"), ("matthew", "matt"), ("daniel", "dan"), ("andrew", "andy"),
    ("benjamin", "ben"), ("jonathan", "jon"), ("joseph", "joe"), ("joshua", "josh"),
    ("nicholas", "nick"), ("timothy", "tim"), ("steven", "steve"), ("charles", "chuck"),
    ("gregory", "greg"), ("patrick", "pat"), ("samuel", "sam"), ("alexander", "alex"),
    ("frederick", "fred"), ("douglas", "doug"), ("stephen", "steve"), ("edward", "ed"),
    ("eugene", "gene"), ("frank", "frank"), ("gerald", "jerry"), ("harold", "harry"),
    ("leonard", "len"), ("martin", "marty"), ("paul", "paul"), ("ronald", "ron"),
    ("donald", "don"), ("kenneth", "ken") ]

/-- The `nickname_map` dict literal of
`LinkedInScraper.url_matches_person_name` (the identifier-only Matcher path),
in source order.  Note the duplicate `"steve"` key: in the Python dict the
later binding `("steve", "stephen")` overwrites `("steve", "steven")`. -/
def url_match_nickname_map : List (String × String) :=
  [ ("david", "dave"), ("dave", "david"),
    ("michael", "mike"), ("mike", "michael"),
    ("william", "bill"), ("bill", "william"),
    ("robert", "bob"), ("bob", "robert"),
    ("richard", "rick"), ("rick", "richard"),
    ("james", "jim"), ("jim", "james"),
    ("thomas", "tom"), ("tom", "thomas"),
    ("christopher", "chris"), ("chris", "christopher"),
    ("timothy", "tim"), ("tim", "timothy"),
    ("daniel", "dan"), ("dan", "daniel"),
    ("andrew", "andy"), ("andy", "andrew"),
    ("benjamin", "ben"), ("ben", "benjamin"),
    ("matthew", "matt"), ("matt", "matthew"),
    ("jonathan", "jon"), ("jon", "jonathan"),
    ("joseph", "joe"), ("joe", "joseph"),
    ("joshua", "josh"), ("josh", "joshua"),
    ("nicholas", "nick"), ("nick", "nicholas"),
    ("steven", "steve"), ("steve", "steven"),
    ("stephen", "steve"), ("steve", "stephen"),
    ("alexander", "alex"), ("alex", "alexander"),
    ("anthony", "tony"), ("tony", "anthony"),
    ("charles", "chuck"), ("chuck", "charles"),
    ("gregory", "greg"), ("greg", "gregory"),
    ("patrick", "pat"), ("pat", "patrick"),
    ("samuel", "sam"), ("sam", "samuel"),
    ("frederick", "fred"), ("fred", "frederick"),
    ("douglas", "doug"), ("doug", "douglas"),
    ("edward", "ed"), ("ed", "edward"),
    ("ronald", "ron"), ("ron", "ronald"),
    ("donald", "don"), ("don", "donald"),
    ("kenneth", "ken"), ("ken", "kenneth") ]

/-- The two fields of the scraped-profile dict that
`validate_profile_match` reads. -/
structure ProfileInfo where
  name : String
  company : String

/-- The `matching_words` counter loop of `validate_profile_match` (rule 2):
counts query tokens of length > 1 that occur verbatim among the candidate's
name tokens. -/
def matching_words_count (searched_words profile_words : List String) : Nat :=
  searched_words.foldl
    (fun n word => if decide (1 < word.length) && profile_words.contains word then n + 1 else n) 0

/-- Rule 2 of `validate_profile_match`: accept when the matching-word count
reaches `min 2 (number of query tokens)`. -/
def rule2_accepts (searched_words profile_words : List String) : Bool :=
  decide (min 2 searched_words.length ≤ matching_words_count searched_words profile_words)

/-- Rule 3 of `validate_profile_match`: for queries of at least two tokens,
accept when the first token's leading character and the last token both occur
in the candidate's name string. -/
def rule3_accepts (searched_words : List String) (profile_name : String) : Bool :=
  if 2 ≤ searched_words.length then
    let w0 := searched_words.headD ""
    let first_initial : String := if w0 = "" then "" else ⟨w0.data.take 1⟩
    let last_name := searched_words.getLastD ""
    decide (first_initial ≠ "") && pyIn last_name profile_name &&
      pyIn (pyLower first_initial) profile_name
  else false

/-- `LinkedInScraper.validate_profile_match`: the Identity Matcher's ordered
rules 1-5 over the scraped profile and the searched (name, company). -/
def validate_profile_match (profile_data : ProfileInfo) (searched_name searched_company : String) :
    Bool :=
  let profile_name := pyStrip (pyLower profile_data.name)
  let searched_name_lower := pyStrip (pyLower searched_name)
  if profile_name = "" ∨ searched_name_lower = "" then false
  else if profile_name = searched_name_lower then true
  else
    let searched_words := pySplitWs searched_name_lower
    let profile_words := pySplitWs profile_name
    if rule2_accepts searched_words profile_words then true
    else if rule3_accepts searched_words profile_name then true
    else if searched_company ≠ "" ∧
        pyIn (pyLower searched_company) (pyLower profile_data.company) = true then false
    else false

/-- The fields of a News API article that `calculate_relevance_score` reads
(`published_at` is replaced by the pre-computed day difference, see the header
comment). -/
structure NewsArticle where
  title : String
  description : String
  source : String

/-- The `credible_sources` list of `NewsCollector.calculate_relevance_score`. -/
def credible_sources : List String :=
  [ "reuters", "bloomberg", "wall street journal", "financial times",
    "techcrunch", "forbes", "business insider", "cnbc", "bbc",
    "associated press", "axios", "politico" ]

/-- The `business_keywords` list of `NewsCollector.calculate_relevance_score`. -/
def business_keywords : List String :=
  [ "ceo", "executive", "company", "business", "announces", "appointed",
    "leadership", "interview", "strategy", "investment", "funding",
    "merger", "acquisition", "partnership", "conference", "speaking" ]

/-- The `negative_keywords` list of `NewsCollector.calculate_relevance_score`. -/
def negative_keywords : List String :=
  [ "sports", "entertainment", "celebrity", "gossip" ]

/-- The lower-cased title-plus-description text the scorer scans
(`content = f"{article['title']} {article['description']}".lower()`). -/
def newsContent (article : NewsArticle) : String :=
  pyLower (article.title ++ " " ++ article.description)

/-- Number of distinct positive business-relevance keywords that occur in the
given content (each list entry is distinct and is checked once). -/
def matchedBusinessCount (content : String) : Nat :=
  business_keywords.countP (fun kw => pyIn kw content)

/-- Number of distinct negative keywords that occur in the given content. -/
def matchedNegativeCount (content : String) : Nat :=
  negative_keywords.countP (fun kw => pyIn kw content)

/-- `NewsCollector.calculate_relevance_score`.  `days_ago` is
`(datetime.now() - pub_date).days` computed from `article['published_at']`,
or `none` when date parsing fails (the `except: pass` branch). -/
def calculate_relevance_score (article : NewsArticle) (days_ago : Option Int)
    (person_name company_name : String) : Int :=
  let content := newsContent article
  let person_name_lower := pyLower person_name
  let company_name_lower := if company_name = "" then "" else pyLower company_name
  let s0 : Int := 0
  let s1 := if pyIn person_name_lower content then s0 + 30 else s0
  let s2 := if company_name_lower ≠ "" ∧ pyIn company_name_lower content = true then s1 + 20 else s1
  let s3 := match days_ago with
    | some d => s2 + max 0 (20 - d)
    | none => s2
  let s4 := if credible_sources.any (fun src => pyIn src (pyLower article.source)) then s3 + 10
    else s3
  let s5 := business_keywords.foldl (fun sc kw => if pyIn kw content then sc + 2 else sc) s4
  let s6 := negative_keywords.foldl (fun sc kw => if pyIn kw content then sc - 5 else sc) s5
  max 0 s6

/-- Hex digit test used by the `urllib.parse.unquote` model. -/
def isHexChar (c : Char) : Bool :=
  c.isDigit || ('a' ≤ c && c ≤ 'f') || ('A' ≤ c && c ≤ 'F')

/-- Value of a hex digit (0 for non-hex input, which `pyUnquoteL` never
passes). -/
def hexVal (c : Char) : Nat :=
  if c.isDigit then c.toNat - '0'.toNat
  else if 'a' ≤ c && c ≤ 'f' then c.toNat - 'a'.toNat + 10
  else if 'A' ≤ c && c ≤ 'F' then c.toNat - 'A'.toNat + 10
  else 0

/-- `urllib.parse.unquote`, modelled byte-per-escape: each valid `%XX` escape
becomes the character with code `XX`; invalid escapes are kept verbatim.
(For escapes below 0x80 this is exactly Python's behaviour; the program only
ever decodes ASCII URL escapes.) -/
def pyUnquoteL : List Char → List Char
  | c :: a :: b :: rest =>
    if c == '%' && isHexChar a && isHexChar b then
      Char.ofNat (16 * hexVal a + hexVal b) :: pyUnquoteL rest
    else c :: pyUnquoteL (a :: b :: rest)
  | l => l

/-- Fuel-driven engine for `pyReplaceL`; fuel `≥ length` always suffices since
every step consumes at least one character. -/
def pyReplaceFuel (pat rep : List Char) : Nat → List Char → List Char
  | _, [] => []
  | 0, l => l
  | fuel + 1, c :: rest =>
    if pat ≠ [] ∧ pat.isPrefixOf (c :: rest) = true then
      rep ++ pyReplaceFuel pat rep fuel (rest.drop (pat.length - 1))
    else c :: pyReplaceFuel pat rep fuel rest

/-- Python `s.replace(pat, rep)`: left-to-right, non-overlapping replacement
(the program never calls it with an empty pattern). -/
def pyReplaceL (pat rep l : List Char) : List Char :=
  pyReplaceFuel pat rep l.length l

/-- The profile-URL marker `'linkedin.com/in/'` searched for by
`_clean_linkedin_url`. -/
def linkedinMarker : List Char := "linkedin.com/in/".data

/-- The delimiter list `['/', '?', '&', '#', ' ', '"', '+']` that ends the
username in `_clean_linkedin_url`. -/
def cleanDelims : List Char := ['/', '?', '&', '#', ' ', '"', '+']

/-- Characters kept by the username sanitizer of `_clean_linkedin_url`
(`c.isalnum() or c in ['-', '_']`). -/
def usernameChar (c : Char) : Bool :=
  c.isAlphanum || c == '-' || c == '_'

/-- The preprocessing chain of `_clean_linkedin_url` before the `/in/`
extraction: `unquote`, then the six `replace` calls in source order. -/
def cleanStripped (url : String) : List Char :=
  pyReplaceL ['"'] []
    (pyReplaceL ['+'] []
      (pyReplaceL "%22".data []
        (pyReplaceL "%26".data "&".data
          (pyReplaceL "%3D".data "=".data
            (pyReplaceL "%3F".data "?".data
              (pyUnquoteL url.data))))))

/-- `profile_start = url.find('/in/', start) + 4` of `_clean_linkedin_url`
(the `none` branch reproduces Python's `-1 + 4`). -/
def cleanProfileStart (u : List Char) (start : Nat) : Nat :=
  match pyFind "/in/".data u start with
  | some p => p + 4
  | none => 3

/-- The delimiter-minimizing loop of `_clean_linkedin_url`: the end of the
username is the smallest delimiter position at or after `ps`, defaulting to
the end of the string. -/
def cleanProfileEnd (u : List Char) (ps : Nat) : Nat :=
  cleanDelims.foldl
    (fun e c =>
      match pyFind [c] u ps with
      | some pos => if pos < e then pos else e
      | none => e)
    u.length

/-- The username extraction of `_clean_linkedin_url`: locate the marker
(Python's `'linkedin.com/in/' in url` guard followed by `url.find`, merged
here into one search), slice between `profile_start` and `profile_end`,
sanitize, and validate. -/
def cleanExtractUser (u : List Char) : Option (List Char) :=
  match pyFind linkedinMarker u 0 with
  | none => none
  | some start =>
    let ps := cleanProfileStart u start
    let username := ((u.drop ps).take (cleanProfileEnd u ps - ps)).filter usernameChar
    if username ≠ [] ∧ ¬['?'].isPrefixOf username = true ∧ ¬['+'].isPrefixOf username = true ∧
        ¬['%'].isPrefixOf username = true ∧ 2 ≤ username.length then
      some username
    else none

/-- The canonical URL rebuilt by `_clean_linkedin_url`:
`f"https://www.linkedin.com/in/{username}/"`. -/
def profileUrlOf (username : List Char) : String :=
  ⟨"https://www.linkedin.com/in/".data ++ username ++ ['/']⟩

/-- `LinkedInScraper._clean_linkedin_url`: the candidate-identifier
canonicalization function. -/
def _clean_linkedin_url (url : String) : Option String :=
  if url.data = [] then none
  else
    match cleanExtractUser (cleanStripped url) with
    | some username => some (profileUrlOf username)
    | none => none

/-- Canonicalization lifted to `Option String`: Python's `if not url: return
None` guard also absorbs a `None` argument, so a previously rejected candidate
stays rejected. -/
def canonicalizeOpt (url : Option String) : Option String :=
  url.bind _clean_linkedin_url

/-- Network-location component of `urllib.parse.urlparse`, modelled for
`scheme://netloc/path` shaped URLs. -/
def urlparse_netloc (url : String) : String :=
  match pyFind "://".data url.data 0 with
  | some i => ⟨(url.data.drop (i + 3)).takeWhile (fun c => !(c == '/' || c == '?' || c == '#'))⟩
  | none => ""

/-- Path component of `urllib.parse.urlparse`, modelled for
`scheme://netloc/path` shaped URLs. -/
def urlparse_path (url : String) : String :=
  match pyFind "://".data url.data 0 with
  | some i =>
    ⟨((url.data.drop (i + 3)).dropWhile (fun c => !(c == '/' || c == '?' || c == '#'))).takeWhile
      (fun c => !(c == '?' || c == '#'))⟩
  | none => ⟨url.data.takeWhile (fun c => !(c == '?' || c == '#'))⟩

/-- `LinkedInScraper.validate_linkedin_url`: `'linkedin.com'` must occur in
the netloc and `'/in/'` in the path. -/
def validate_linkedin_url (url : String) : Bool :=
  pyIn "linkedin.com" (urlparse_netloc url) && pyIn "/in/" (urlparse_path url)

/-- The Google-redirect branch of
`LinkedInScraper._extract_linkedin_urls_from_soup` (method 1) for a single
`href` attribute: unwrap `/url?q=...&...`, percent-decode once, then
canonicalize and validate. -/
def extract_redirect_candidate (href : String) : Option String :=
  if pyIn "/url?q=" href then
    let afterMarker := match pyFind "/url?q=".data href.data 0 with
      | some i => href.data.drop (i + 7)
      | none => []
    let beforeAmp := match pyFind ['&'] afterMarker 0 with
      | some j => afterMarker.take j
      | none => afterMarker
    let actual_url : String := ⟨pyUnquoteL beforeAmp⟩
    if pyIn "linkedin.com/in/" actual_url then
      match _clean_linkedin_url actual_url with
      | some clean_url => if validate_linkedin_url clean_url then some clean_url else none
      | none => none
    else none
  else none

/-- One entry of the `experience` list of a profile dict. -/
structure ExperienceItem where
  title : String
  company : String
  duration : String

/-- One entry of the `education` list of a profile dict. -/
structure EducationItem where
  school : String
  degree : String
  years : String

/-- The profile dict assembled by `scrape_profile` /
`create_mock_profile_data`. -/
structure ProfileData where
  name : String
  title : String
  company : String
  location : String
  about : String
  experience : List ExperienceItem
  education : List EducationItem
  url : String

/-- Helper for `pyTitle`; the Bool records whether the previous character was
a letter. -/
def pyTitleAux : Bool → List Char → List Char
  | _, [] => []
  | prevAlpha, c :: rest =>
    if c.isAlpha then
      (if prevAlpha then c.toLower else c.toUpper) :: pyTitleAux true rest
    else c :: pyTitleAux false rest

/-- Python `str.title()` (ASCII model): uppercase every letter not preceded by
a letter, lowercase the other letters. -/
def pyTitle (s : String) : String := ⟨pyTitleAux false s.data⟩

/-- Python `s.rstrip('/')`. -/
def pyRstripSlash (l : List Char) : List Char :=
  (l.reverse.dropWhile (· == '/')).reverse

/-- The profile dict literal returned by `create_mock_profile_data`. -/
def mkMockProfile (mock_name mock_title mock_company url : String) : ProfileData :=
  { name := mock_name
    title := mock_title
    company := mock_company
    location := "United States"
    about := "Experienced " ++ pyLower mock_title ++
      " with a demonstrated history of working in the technology industry."
    experience := [{ title := mock_title, company := mock_company, duration := "2020 - Present" }]
    education := [{ school := "University", degree := "Bachelor of Science", years := "1990 - 1994" }]
    url := url }

/-- `LinkedInScraper.create_mock_profile_data`: fabricate a profile from the
URL's username segment (`url.split('/in/')[1].rstrip('/')`, special-casing
three known usernames, otherwise `username.replace('-', ' ').title()`). -/
def create_mock_profile_data (linkedin_url : String) : ProfileData :=
  match pyFind "/in/".data linkedin_url.data 0 with
  | some i =>
    let seg0 := linkedin_url.data.drop (i + 4)
    let seg := match pyFind "/in/".data seg0 0 with
      | some j => seg0.take j
      | none => seg0
    let username : String := ⟨pyRstripSlash seg⟩
    if username = "satyanadella" ∨ username = "satya-nadella" then
      mkMockProfile "Satya Nadella" "Chairman and CEO" "Microsoft" linkedin_url
    else if username = "tim-cook-1b4ee" ∨ username = "timcook" then
      mkMockProfile "Tim Cook" "Chief Executive Officer" "Apple" linkedin_url
    else if username = "sundarpichai" then
      mkMockProfile "Sundar Pichai" "Chief Executive Officer" "Google" linkedin_url
    else
      mkMockProfile (pyTitle ⟨pyReplaceL ['-'] [' '] username.data⟩) "Executive"
        "Technology Company" linkedin_url
  | none => mkMockProfile "Professional" "Executive" "Company" linkedin_url

/-- `LinkedInScraper.scrape_profile` with the network fetch abstracted:
`status` is the HTTP status of the profile fetch and `extracted` carries the
fields the `extract_*` helpers would pull from the fetched body (its `name`
field is `extract_name`'s result, "" when nothing could be extracted). -/
def scrape_profile_model (linkedin_url : String) (status : Nat) (extracted : ProfileData) :
    Option ProfileData :=
  if validate_linkedin_url linkedin_url = false then none
  else if status = 999 then some (create_mock_profile_data linkedin_url)
  else if status = 429 then none
  else if status ≠ 200 then none
  else if extracted.name = "" then some (create_mock_profile_data linkedin_url)
  else some { extracted with url := linkedin_url }

/-- An all-empty extraction result (a body from which nothing could be
parsed). -/
def emptyProfile : ProfileData :=
  { name := "", title := "", company := "", location := "", about := "",
    experience := [], education := [], url := "" }

/-- Outcome of one HTTP request to the primary (Google) search backend, with
result extraction abstracted: `ok urls` is a 200 response whose page yielded
the given LinkedIn URLs, `rateLimited` is a 429, `failed` any other non-200
status. -/
inductive GoogleResponse where
  | rateLimited : GoogleResponse
  | ok : List String → GoogleResponse
  | failed : GoogleResponse

/-- `LinkedInScraper.google_search_linkedin` for one query-phrasing variant,
with the oracle giving the response to the n-th HTTP request of the resolution
call.  Returns (number of requests issued, urls found).  Inside the call up to
3 search-URL shapes are tried; a 429 returns `[]` immediately, a non-200
continues with the next shape, and a non-empty extraction breaks the loop. -/
def google_search_run (oracle : Nat → GoogleResponse) : Nat → Nat → Nat × List String
  | 0, _ => (0, [])
  | n + 1, start =>
    match oracle start with
    | .rateLimited => (1, [])
    | .ok urls =>
      if urls = [] then
        let r := google_search_run oracle n (start + 1)
        (r.1 + 1, r.2)
      else (1, urls)
    | .failed =>
      let r := google_search_run oracle n (start + 1)
      (r.1 + 1, r.2)

/-- Strategy 2 of `LinkedInScraper.search_linkedin_profile`: the loop over the
query-phrasing variants, each variant invoking `google_search_linkedin` (3
search-URL attempts); a variant returning candidates ends the loop, a variant
returning `[]` — including the rate-limited case — moves on to the NEXT
variant.  Returns (total requests issued to the backend, candidates). -/
def search_strategy2_run (oracle : Nat → GoogleResponse) : Nat → Nat → Nat × Option (List String)
  | 0, _ => (0, none)
  | v + 1, start =>
    let g := google_search_run oracle 3 start
    if g.2 = [] then
      let rest := search_strategy2_run oracle v (start + g.1)
      (g.1 + rest.1, rest.2)
    else (g.1, some g.2)

/-- Unfolding equation: the empty list is a leading block of every list. -/
theorem nil_isPrefixOf_eq (l : List Char) : ([] : List Char).isPrefixOf l = true := by
  cases l <;> rfl

/-- Unfolding equation for `List.isPrefixOf` on two conses. -/
theorem cons_isPrefixOf_cons_eq (a b : Char) (as bs : List Char) :
    (a :: as).isPrefixOf (b :: bs) = (a == b && as.isPrefixOf bs) := rfl

/-- Every character of a leading block occurs in the list. -/
theorem mem_of_isPrefixOf : ∀ {pat l : List Char}, pat.isPrefixOf l = true → ∀ a ∈ pat, a ∈ l := by
  intro pat
  induction pat with
  | nil => intro l _ a ha; exact absurd ha (List.not_mem_nil a)
  | cons p ps ih =>
    intro l h a ha
    cases l with
    | nil => exact absurd h (by simp [List.isPrefixOf])
    | cons c rest =>
      rw [cons_isPrefixOf_cons_eq] at h
      simp only [Bool.and_eq_true, beq_iff_eq] at h
      obtain ⟨hpc, hrest⟩ := h
      rcases List.mem_cons.mp ha with rfl | ha'
      · rw [hpc]; exact List.mem_cons_self _ _
      · exact List.mem_cons_of_mem _ (ih hrest a ha')

/-- A list is a leading block of itself followed by anything. -/
theorem isPrefixOf_append_self : ∀ (l m : List Char), l.isPrefixOf (l ++ m) = true
  | [], m => by cases m <;> rfl
  | a :: as, m => by
    rw [List.cons_append, cons_isPrefixOf_cons_eq, isPrefixOf_append_self as m]
    simp

/-- On a list with no duplicate keys, last-binding-wins dict lookup agrees
with a first-match scan of the binding list. -/
theorem find?_reverse_of_nodup_keys {α β : Type} [BEq α] [LawfulBEq α]
    (m : List (α × β)) (k : α) (h : (m.map Prod.fst).Nodup) :
    m.reverse.find? (fun p => p.1 == k) = m.find? (fun p => p.1 == k) := by
  induction m with
  | nil => rfl
  | cons p m ih =>
    simp only [List.map_cons, List.nodup_cons] at h
    obtain ⟨hp, hm⟩ := h
    rw [List.reverse_cons, List.find?_append]
    by_cases hk : (p.1 == k) = true
    · have hkey : p.1 = k := eq_of_beq hk
      have hnone : m.find? (fun q => q.1 == k) = none := by
        rw [List.find?_eq_none]
        intro x hx hbx
        exact hp (by rw [← hkey] at *; exact (eq_of_beq hbx) ▸ List.mem_map_of_mem Prod.fst hx)
      have hrevnone : m.reverse.find? (fun q => q.1 == k) = none := by
        rw [List.find?_eq_none]
        intro x hx hbx
        rw [List.find?_eq_none] at hnone
        exact hnone x (List.mem_reverse.mp hx) hbx
      rw [hrevnone]
      simp [List.find?, hk]
    · have hkf : (p.1 == k) = false := Bool.eq_false_iff.mpr hk
      rw [ih hm]
      simp [List.find?, hkf]

/-- Dict lookup on a duplicate-free dict literal is the first matching entry. -/
theorem dictLookup_eq_first_match {α β : Type} [BEq α] [LawfulBEq α]
    (m : List (α × β)) (k : α) (h : (m.map Prod.fst).Nodup) :
    dictLookup m k = (m.find? (fun p => p.1 == k)).map (fun p => p.2) := by
  unfold dictLookup
  rw [find?_reverse_of_nodup_keys m k h]

/-- C1: for every query (name, organization), the Static Identity Table
lookup (`check_manual_database`) tries, in strict order, the exact normalized
(name, organization) key, then the (name, "") key, then a
partial-organization substring match (either direction of containment) among
same-name entries; the first hit determines the result and otherwise the
lookup produces nothing — i.e. it coincides with the fallback cascade the
spec describes, phase by phase. -/
theorem static_table_lookup_order (person_name company_name : String) :
    check_manual_database person_name company_name =
      static_table_lookup_spec person_name company_name := by
  have h : (manual_database.map Prod.fst).Nodup := by decide
  simp only [check_manual_database, static_table_lookup_spec,
    dictLookup_eq_first_match manual_database _ h]

/-- C3 counterexample: equivalence lookup is not symmetric.  In the
Matcher-path table the duplicate `"steve"` key makes the chain
steven → steve → stephen (so `steve` does not map back to `steven`), and the
URL Constructor's table maps `david → dave` while `dave` is not a key at
all. -/
theorem equivalence_symmetry_counterexample :
    dictLookup url_match_nickname_map "steven" = some "steve" ∧
    dictLookup url_match_nickname_map "steve" ≠ some "steven" ∧
    dictLookup construct_nickname_map "david" = some "dave" ∧
    dictLookup construct_nickname_map "dave" = none := by decide

/-- C3 amended: full lookup symmetry fails (see the counterexample), but the
Matcher-path table satisfies the closure property that every value produced
by a lookup is itself a key of the table, so lookups can always be chained;
the URL Constructor's table is one-directional and has no such property. -/
theorem url_match_nickname_map_value_closure (a b : String)
    (h : dictLookup url_match_nickname_map a = some b) :
    (dictLookup url_match_nickname_map b).isSome = true := by
  have hmem : ∃ p ∈ url_match_nickname_map, p.2 = b := by
    unfold dictLookup at h
    cases hf : url_match_nickname_map.reverse.find? (fun p => p.1 == a) with
    | none => rw [hf] at h; exact absurd h (by simp)
    | some p =>
      rw [hf] at h
      exact ⟨p, List.mem_reverse.mp (List.mem_of_find?_eq_some hf), by simpa using h⟩
  obtain ⟨p, hp, hpb⟩ := hmem
  have hall : url_match_nickname_map.all
      (fun p => (dictLookup url_match_nickname_map p.2).isSome) = true := by decide
  have := List.all_eq_true.mp hall p hp
  rw [hpb] at this
  exact this

/-- C3 witness: the closure theorem applied at the concrete pair
(david, dave) of the Matcher-path table. -/
theorem url_match_nickname_map_value_closure_witness :
    (dictLookup url_match_nickname_map "dave").isSome = true :=
  url_match_nickname_map_value_closure "david" "dave" (by decide)

/-- C4 counterexample: for query name "Acme Corp", candidate known-name
"Acme Corp Official" and candidate organization "Acme Corp", the Matcher
ACCEPTS (returns true) — it does not reach rule 4's rejection, contrary to
the claim. -/
theorem matcher_brand_account_counterexample :
    validate_profile_match ⟨"Acme Corp Official", "Acme Corp"⟩ "Acme Corp" "Acme Corp" = true := by
  decide

/-- C4 amended: the Matcher accepts this query/candidate pair via rule 2:
rule 1 (exact equality) fails, but both query tokens "acme" and "corp" appear
among the candidate's name tokens, meeting the `min 2 2` threshold, so rule 2
accepts before rule 4 is ever consulted (with or without a queried
organization). -/
theorem matcher_brand_account_amended :
    validate_profile_match ⟨"Acme Corp Official", "Acme Corp"⟩ "Acme Corp" "Acme Corp" = true ∧
    validate_profile_match ⟨"Acme Corp Official", "Acme Corp"⟩ "Acme Corp" "" = true ∧
    pyStrip (pyLower "Acme Corp Official") ≠ pyStrip (pyLower "Acme Corp") ∧
    rule2_accepts (pySplitWs "acme corp") (pySplitWs "acme corp official") = true ∧
    matching_words_count (pySplitWs "acme corp") (pySplitWs "acme corp official") = 2 := by
  decide

/-- Counting loop as a `countP`: folding an if-then-increment over a list
starting from `n` yields `n` plus the number of matching entries. -/
theorem foldl_count_eq_countP {α : Type} (p : α → Bool) (l : List α) (n : Nat) :
    l.foldl (fun acc w => if p w then acc + 1 else acc) n = n + l.countP p := by
  induction l generalizing n with
  | nil => simp
  | cons a l ih =>
    simp only [List.foldl_cons, List.countP_cons]
    by_cases h : p a = true
    · rw [if_pos h, ih, if_pos h]; omega
    · rw [if_neg h, ih, if_neg h]; omega

/-- The rule-2 counter equals the number of query tokens of length > 1 that
occur among the candidate tokens. -/
theorem matching_words_count_eq (searched_words profile_words : List String) :
    matching_words_count searched_words profile_words =
      (searched_words.filter
        (fun w => decide (1 < w.length) && profile_words.contains w)).length := by
  unfold matching_words_count
  rw [foldl_count_eq_countP, List.countP_eq_length_filter]
  omega

/-- C5: Matcher rule 2 accepts exactly when at least
`min 2 (total token count)` of the query's tokens of length > 1 appear
verbatim among the candidate's known-name tokens; in particular for the query
"j smith" the token list is ["j", "smith"], the threshold is `min 2 2 = 2`,
only "smith" is eligible, and rule 2 therefore cannot accept even against the
candidate token list ["j", "smith"] itself. -/
theorem matcher_rule2_characterization :
    (∀ searched_words profile_words : List String,
      rule2_accepts searched_words profile_words = true ↔
        min 2 searched_words.length ≤
          (searched_words.filter
            (fun w => decide (1 < w.length) && profile_words.contains w)).length) ∧
    pySplitWs "j smith" = ["j", "smith"] ∧
    (["j", "smith"].filter (fun w => decide (1 < w.length))) = ["smith"] ∧
    rule2_accepts ["j", "smith"] ["j", "smith"] = false := by
  refine ⟨?_, by decide, by decide, by decide⟩
  intro sw pw
  simp only [rule2_accepts, matching_words_count_eq, decide_eq_true_eq]

/-- C5 witness: the characterization applied at a concrete two-token query
whose both tokens occur among the candidate tokens. -/
theorem matcher_rule2_characterization_witness :
    rule2_accepts ["john", "smith"] ["john", "smith", "jr"] = true :=
  (matcher_rule2_characterization.1 ["john", "smith"] ["john", "smith", "jr"]).mpr (by decide)

/-- The business-keyword loop of the scorer adds 2 per matched keyword. -/
theorem foldl_add_two_eq (content : String) (l : List String) (s : Int) :
    l.foldl (fun sc kw => if pyIn kw content then sc + 2 else sc) s =
      s + 2 * (l.countP (fun kw => pyIn kw content) : Int) := by
  induction l generalizing s with
  | nil => simp
  | cons a l ih =>
    simp only [List.foldl_cons, List.countP_cons]
    by_cases h : pyIn a content = true
    · rw [if_pos h, ih]
      simp only [h, if_true]
      push_cast
      ring
    · rw [if_neg h, ih]
      simp only [h, if_false]
      push_cast
      ring

/-- The negative-keyword loop of the scorer subtracts 5 per matched keyword. -/
theorem foldl_sub_five_eq (content : String) (l : List String) (s : Int) :
    l.foldl (fun sc kw => if pyIn kw content then sc - 5 else sc) s =
      s - 5 * (l.countP (fun kw => pyIn kw content) : Int) := by
  induction l generalizing s with
  | nil => simp
  | cons a l ih =>
    simp only [List.foldl_cons, List.countP_cons]
    by_cases h : pyIn a content = true
    · rw [if_pos h, ih]
      simp only [h, if_true]
      push_cast
      ring
    · rw [if_neg h, ih]
      simp only [h, if_false]
      push_cast
      ring

/-- Closed form of `calculate_relevance_score`: the floored sum of the five
independent contributions. -/
theorem calculate_relevance_score_eq (article : NewsArticle) (days_ago : Option Int)
    (person_name company_name : String) :
    calculate_relevance_score article days_ago person_name company_name =
      max 0
        ((if pyIn (pyLower person_name) (newsContent article) then (30 : Int) else 0) +
          (if (if company_name = "" then "" else pyLower company_name) ≠ "" ∧
              pyIn (if company_name = "" then "" else pyLower company_name)
                (newsContent article) = true then (20 : Int) else 0) +
          (match days_ago with
            | some d => max 0 (20 - d)
            | none => (0 : Int)) +
          (if credible_sources.any (fun src => pyIn src (pyLower article.source)) then (10 : Int)
            else 0) +
          2 * (matchedBusinessCount (newsContent article) : Int) -
          5 * (matchedNegativeCount (newsContent article) : Int)) := by
  simp only [calculate_relevance_score, matchedBusinessCount, matchedNegativeCount]
  rw [foldl_sub_five_eq, foldl_add_two_eq]
  cases days_ago <;> split_ifs <;> ring_nf

/-- C2: the relevance score is a non-negative integer, and — holding the
item's other fields (source), the person, the organization and the evaluation
time (`days_ago`) fixed, and holding the person-mention, organization-mention
and negative-keyword contributions of the text equal — the score is
non-decreasing in the number of distinct positive business-relevance keywords
occurring in the lower-cased title+description. -/
theorem relevance_score_nonneg_and_monotone :
    (∀ (article : NewsArticle) (days_ago : Option Int) (person_name company_name : String),
      0 ≤ calculate_relevance_score article days_ago person_name company_name) ∧
    (∀ (a1 a2 : NewsArticle) (days_ago : Option Int) (person_name company_name : String),
      a1.source = a2.source →
      pyIn (pyLower person_name) (newsContent a1) = pyIn (pyLower person_name) (newsContent a2) →
      (company_name ≠ "" →
        pyIn (pyLower company_name) (newsContent a1) =
          pyIn (pyLower company_name) (newsContent a2)) →
      matchedNegativeCount (newsContent a1) = matchedNegativeCount (newsContent a2) →
      matchedBusinessCount (newsContent a1) ≤ matchedBusinessCount (newsContent a2) →
      calculate_relevance_score a1 days_ago person_name company_name ≤
        calculate_relevance_score a2 days_ago person_name company_name) := by
  constructor
  · intro article days_ago person_name company_name
    rw [calculate_relevance_score_eq]
    exact le_max_left 0 _
  · intro a1 a2 days_ago person_name company_name hsrc hperson hcomp hneg hbus
    rw [calculate_relevance_score_eq, calculate_relevance_score_eq, hsrc, hperson, hneg]
    have hb : (matchedBusinessCount (newsContent a1) : Int) ≤
        (matchedBusinessCount (newsContent a2) : Int) := by exact_mod_cast hbus
    by_cases hc : company_name = ""
    · have h20 : ∀ a : NewsArticle,
          (if (if company_name = "" then "" else pyLower company_name) ≠ "" ∧
              pyIn (if company_name = "" then "" else pyLower company_name)
                (newsContent a) = true then (20 : Int) else 0) = 0 := by
        intro a
        rw [if_neg]
        rintro ⟨hne, -⟩
        exact hne (if_pos hc)
      rw [h20 a1, h20 a2]
      exact max_le_max (le_refl 0) (by linarith)
    · simp only [if_neg hc]
      rw [hcomp hc]
      exact max_le_max (le_refl 0) (by linarith)

/-- C2 witness: the theorem applied at concrete items — non-negativity for a
one-keyword item, and monotonicity from a one-keyword item ("ceo") to a
three-keyword item ("ceo", "announces", "merger") with all other
contributions equal. -/
theorem relevance_score_nonneg_and_monotone_witness :
    0 ≤ calculate_relevance_score ⟨"ceo news", "", ""⟩ (some 0) "zz" "" ∧
    calculate_relevance_score ⟨"ceo news", "", ""⟩ (some 0) "zz" "" ≤
      calculate_relevance_score ⟨"ceo announces merger", "", ""⟩ (some 0) "zz" "" :=
  ⟨relevance_score_nonneg_and_monotone.1 ⟨"ceo news", "", ""⟩ (some 0) "zz" "",
   relevance_score_nonneg_and_monotone.2 ⟨"ceo news", "", ""⟩ ⟨"ceo announces merger", "", ""⟩
     (some 0) "zz" "" rfl (by decide) (fun h => absurd rfl h) (by decide) (by decide)⟩

/-- C8 counterexample: for the item titled "Acme announces new CEO" (empty
description and source, published today, person "John Doe" absent,
organization "Acme Corp" queried) the code scores 24 = 20 (recency) + 2·2
(keywords "ceo" and "announces"): the organization bonus does NOT apply since
the text does not contain "acme corp", so the claimed total
20 (org) + 20 (recency) + keyword hits = 44 is wrong. -/
theorem news_scenario_counterexample :
    calculate_relevance_score ⟨"Acme announces new CEO", "", ""⟩ (some 0) "John Doe" "Acme Corp"
      = 24 ∧
    matchedBusinessCount (newsContent ⟨"Acme announces new CEO", "", ""⟩) = 2 ∧
    pyIn (pyLower "Acme Corp") (newsContent ⟨"Acme announces new CEO", "", ""⟩) = false ∧
    (24 : Int) ≠ 20 + 20 + 2 * 2 := by decide

/-- C8 amended: the item scores 20 (recency) + 2·2 (keywords); the
organization bonus does not fire because "acme corp" does not occur in the
text; and the score is strictly less than that of the otherwise-identical
item whose text also contains the person's name (which adds 30). -/
theorem news_scenario_amended :
    calculate_relevance_score ⟨"Acme announces new CEO", "", ""⟩ (some 0) "John Doe" "Acme Corp"
      = 20 + 2 * 2 ∧
    calculate_relevance_score ⟨"Acme announces new CEO", "John Doe", ""⟩ (some 0) "John Doe"
      "Acme Corp" = 30 + 20 + 2 * 2 ∧
    calculate_relevance_score ⟨"Acme announces new CEO", "", ""⟩ (some 0) "John Doe" "Acme Corp" <
      calculate_relevance_score ⟨"Acme announces new CEO", "John Doe", ""⟩ (some 0) "John Doe"
        "Acme Corp" := by decide

/-- C9: evaluating strategy 2 when every Google response is a 429 rate-limit
signal.  The first request of the first variant receives the signal (that
variant issues exactly 1 request and returns `[]`), yet the strategy-2 loop
goes on to the remaining variants and issues one further Google request per
variant — 3 requests in total for 3 variants — instead of abandoning the
backend after the first signal as the claim (and the code's own
"moving to fallback methods" comment) states. -/
theorem rate_limit_backend_not_abandoned :
    google_search_run (fun _ => GoogleResponse.rateLimited) 3 0 = (1, []) ∧
    search_strategy2_run (fun _ => GoogleResponse.rateLimited) 3 0 = (3, none) ∧
    (3 : Nat) ≠ 1 := by decide

/-- C10: whenever the profile fetch for a valid profile URL returns the
bot-detection status 999, or returns 200 but no name could be extracted from
the body, `scrape_profile` does not produce nothing: it returns exactly the
mock profile fabricated by `create_mock_profile_data` from the URL's username
segment. -/
theorem scrape_falls_back_to_mock (linkedin_url : String) (status : Nat)
    (extracted : ProfileData) (hvalid : validate_linkedin_url linkedin_url = true)
    (h : status = 999 ∨ (status = 200 ∧ extracted.name = "")) :
    scrape_profile_model linkedin_url status extracted =
      some (create_mock_profile_data linkedin_url) := by
  unfold scrape_profile_model
  rw [hvalid]
  rcases h with h | ⟨h200, hname⟩
  · subst h; simp
  · subst h200; simp [hname]

/-- C10 witness: the theorem applied at the URL
`https://www.linkedin.com/in/jdoe/` with status 999. -/
theorem scrape_falls_back_to_mock_witness :
    scrape_profile_model "https://www.linkedin.com/in/jdoe/" 999 emptyProfile =
      some (create_mock_profile_data "https://www.linkedin.com/in/jdoe/") :=
  scrape_falls_back_to_mock "https://www.linkedin.com/in/jdoe/" 999 emptyProfile (by decide)
    (Or.inl rfl)

/-- Percent-decoding is the identity on percent-free text. -/
theorem pyUnquoteL_no_percent : ∀ (l : List Char), '%' ∉ l → pyUnquoteL l = l
  | [], _ => rfl
  | [_], _ => rfl
  | [_, _], _ => rfl
  | c :: a :: b :: rest, h => by
    have hc : (c == '%') = false := by
      have hne : c ≠ '%' := fun e => h (e ▸ List.mem_cons_self c (a :: b :: rest))
      simp [hne]
    have ih := pyUnquoteL_no_percent (a :: b :: rest) (fun hm => h (List.mem_cons_of_mem _ hm))
    simp [pyUnquoteL, hc, ih]

/-- The replacement engine is the identity when some character of the pattern
never occurs in the scanned list. -/
theorem pyReplaceFuel_id (pat rep : List Char) (c0 : Char) (hc : c0 ∈ pat) :
    ∀ (fuel : Nat) (l : List Char), c0 ∉ l → pyReplaceFuel pat rep fuel l = l := by
  intro fuel
  induction fuel with
  | zero => intro l _; cases l <;> rfl
  | succ n ih =>
    intro l hl
    cases l with
    | nil => rfl
    | cons c rest =>
      have hnp : ¬(pat ≠ [] ∧ pat.isPrefixOf (c :: rest) = true) := by
        rintro ⟨-, hpre⟩
        exact hl (mem_of_isPrefixOf hpre c0 hc)
      show (if pat ≠ [] ∧ pat.isPrefixOf (c :: rest) = true then
          rep ++ pyReplaceFuel pat rep n (rest.drop (pat.length - 1))
        else c :: pyReplaceFuel pat rep n rest) = c :: rest
      rw [if_neg hnp, ih rest (fun hm => hl (List.mem_cons_of_mem c hm))]

/-- Python `replace` is the identity when some character of the pattern never
occurs in the string. -/
theorem pyReplaceL_id (pat rep : List Char) (c0 : Char) (hc : c0 ∈ pat) {l : List Char}
    (hl : c0 ∉ l) : pyReplaceL pat rep l = l :=
  pyReplaceFuel_id pat rep c0 hc l.length l hl

/-- The find scanner succeeds immediately on a leading occurrence. -/
theorem pyFindAux_here {pat l : List Char} (h : pat.isPrefixOf l = true) (i : Nat) :
    pyFindAux pat l i = some i := by
  cases l <;> simp [pyFindAux, h]

/-- The find scanner skips a leading block that never contains the pattern's
head character. -/
theorem pyFindAux_skip (p : Char) (ps : List Char) :
    ∀ (pre : List Char), p ∉ pre → ∀ (X : List Char) (i : Nat),
      pyFindAux (p :: ps) (pre ++ X) i = pyFindAux (p :: ps) X (i + pre.length) := by
  intro pre
  induction pre with
  | nil => intro _ X i; simp
  | cons c pre ih =>
    intro hp X i
    have hpc : (p == c) = false := by
      have hne : p ≠ c := fun e => hp (by rw [e]; exact List.mem_cons_self c pre)
      simp [hne]
    have hpre : ((p :: ps).isPrefixOf (c :: (pre ++ X))) = false := by
      rw [cons_isPrefixOf_cons_eq, hpc, Bool.false_and]
    rw [List.cons_append]
    rw [show pyFindAux (p :: ps) (c :: (pre ++ X)) i =
        if (p :: ps).isPrefixOf (c :: (pre ++ X)) then some i
        else pyFindAux (p :: ps) (pre ++ X) (i + 1) from rfl]
    rw [hpre]
    simp only [Bool.false_eq_true, if_false]
    rw [ih (fun hm => hp (List.mem_cons_of_mem c hm)) X (i + 1)]
    simp only [List.length_cons]
    congr 1
    omega

/-- The find scanner fails on a list that never contains the single-character
pattern. -/
theorem pyFindAux_singleton_none (c : Char) :
    ∀ (l : List Char), c ∉ l → ∀ (i : Nat), pyFindAux [c] l i = none := by
  intro l
  induction l with
  | nil => intro _ i; simp [pyFindAux, List.isPrefixOf]
  | cons a rest ih =>
    intro h i
    have hca : (c == a) = false := by
      have hne : c ≠ a := fun e => h (by rw [e]; exact List.mem_cons_self a rest)
      simp [hne]
    have hpre : ([c].isPrefixOf (a :: rest)) = false := by
      rw [cons_isPrefixOf_cons_eq, hca, Bool.false_and]
    rw [show pyFindAux [c] (a :: rest) i =
        if [c].isPrefixOf (a :: rest) then some i else pyFindAux [c] rest (i + 1) from rfl]
    rw [hpre]
    simp only [Bool.false_eq_true, if_false]
    exact ih (fun hm => h (List.mem_cons_of_mem a hm)) (i + 1)

/-- A character rejected by the username sanitizer never occurs in a
sanitized username. -/
theorem not_mem_of_all_usernameChar {un : List Char} (hall : un.all usernameChar = true)
    {c : Char} (hc : usernameChar c = false) : c ∉ un := by
  intro hm
  have := List.all_eq_true.mp hall c hm
  rw [hc] at this
  exact Bool.noConfusion this

/-- A character that is neither a username character, nor `'/'`, nor part of
the fixed prefix, never occurs in a rebuilt canonical profile URL. -/
theorem not_mem_profileUrl {un : List Char} (hall : un.all usernameChar = true) {c : Char}
    (hc : usernameChar c = false) (hs : c ≠ '/')
    (hp : c ∉ "https://www.linkedin.com/in/".data) :
    c ∉ ("https://www.linkedin.com/in/".data ++ un ++ ['/']) := by
  intro hm
  rcases List.mem_append.mp hm with hm | hm
  · rcases List.mem_append.mp hm with hm | hm
    · exact hp hm
    · exact not_mem_of_all_usernameChar hall hc hm
  · rcases List.mem_cons.mp hm with hm | hm
    · exact hs hm
    · exact absurd hm (List.not_mem_nil c)

/-- The preprocessing chain is the identity on a rebuilt canonical profile
URL. -/
theorem cleanStripped_profileUrl {un : List Char} (hall : un.all usernameChar = true) :
    cleanStripped (profileUrlOf un) = "https://www.linkedin.com/in/".data ++ un ++ ['/'] := by
  have hpct : ('%' : Char) ∉ ("https://www.linkedin.com/in/".data ++ un ++ ['/']) :=
    not_mem_profileUrl hall (by decide) (by decide) (by decide)
  have hplus : ('+' : Char) ∉ ("https://www.linkedin.com/in/".data ++ un ++ ['/']) :=
    not_mem_profileUrl hall (by decide) (by decide) (by decide)
  have hquote : ('"' : Char) ∉ ("https://www.linkedin.com/in/".data ++ un ++ ['/']) :=
    not_mem_profileUrl hall (by decide) (by decide) (by decide)
  unfold cleanStripped
  rw [show (profileUrlOf un).data = "https://www.linkedin.com/in/".data ++ un ++ ['/'] from rfl]
  rw [pyUnquoteL_no_percent _ hpct]
  rw [pyReplaceL_id "%3F".data "?".data '%' (by decide) hpct]
  rw [pyReplaceL_id "%3D".data "=".data '%' (by decide) hpct]
  rw [pyReplaceL_id "%26".data "&".data '%' (by decide) hpct]
  rw [pyReplaceL_id "%22".data [] '%' (by decide) hpct]
  rw [pyReplaceL_id ['+'] [] '+' (by decide) hplus]
  rw [pyReplaceL_id ['"'] [] '"' (by decide) hquote]

/-- On the rebuilt URL the profile marker is first found at index 12. -/
theorem find_marker_profileUrl (un : List Char) :
    pyFind linkedinMarker ("https://www.linkedin.com/in/".data ++ un ++ ['/']) 0 = some 12 := by
  unfold pyFind
  rw [List.drop_zero]
  rw [show "https://www.linkedin.com/in/".data ++ un ++ ['/'] =
      "https://www.".data ++ (linkedinMarker ++ (un ++ ['/'])) by
    rw [show "https://www.linkedin.com/in/".data = "https://www.".data ++ linkedinMarker by decide]
    simp [List.append_assoc]]
  rw [show linkedinMarker = 'l' :: "inkedin.com/in/".data by decide]
  rw [pyFindAux_skip 'l' "inkedin.com/in/".data "https://www.".data (by decide) _ 0]
  rw [pyFindAux_here (isPrefixOf_append_self _ _) _]
  rfl

/-- On the rebuilt URL `'/in/'` is first found, searching from index 12, at
index 24. -/
theorem find_slash_in_profileUrl (un : List Char) :
    pyFind "/in/".data ("https://www.linkedin.com/in/".data ++ un ++ ['/']) 12 = some 24 := by
  unfold pyFind
  rw [show "https://www.linkedin.com/in/".data ++ un ++ ['/'] =
      "https://www.".data ++ (linkedinMarker ++ (un ++ ['/'])) by
    rw [show "https://www.linkedin.com/in/".data = "https://www.".data ++ linkedinMarker by decide]
    simp [List.append_assoc]]
  rw [show (12 : Nat) = ("https://www.".data).length from rfl]
  rw [List.drop_left]
  rw [show linkedinMarker ++ (un ++ ['/']) =
      "linkedin.com".data ++ ("/in/".data ++ (un ++ ['/'])) by
    rw [show linkedinMarker = "linkedin.com".data ++ "/in/".data by decide]
    simp [List.append_assoc]]
  rw [show "/in/".data = '/' :: "in/".data by decide]
  rw [pyFindAux_skip '/' "in/".data "linkedin.com".data (by decide) _ _]
  rw [pyFindAux_here (isPrefixOf_append_self _ _) _]
  rfl

/-- Dropping the 28-character prefix of the rebuilt URL leaves the username
and the trailing slash. -/
theorem drop28_profileUrl (un : List Char) :
    ("https://www.linkedin.com/in/".data ++ un ++ ['/']).drop 28 = un ++ ['/'] := by
  rw [List.append_assoc]
  rw [show (28 : Nat) = ("https://www.linkedin.com/in/".data).length from rfl]
  exact List.drop_left _ _

/-- The first `'/'` at or after index 28 of the rebuilt URL is the trailing
slash, at index `28 + un.length`. -/
theorem find_delim_slash_profileUrl (un : List Char) (hall : un.all usernameChar = true) :
    pyFind ['/'] ("https://www.linkedin.com/in/".data ++ un ++ ['/']) 28 =
      some (28 + un.length) := by
  unfold pyFind
  rw [drop28_profileUrl un]
  rw [pyFindAux_skip '/' [] un (not_mem_of_all_usernameChar hall (by decide)) ['/'] 28]
  rw [pyFindAux_here (by decide) _]

/-- No other delimiter occurs at or after index 28 of the rebuilt URL. -/
theorem find_delim_none_profileUrl (un : List Char) (hall : un.all usernameChar = true)
    (c : Char) (hc : usernameChar c = false) (hcs : c ≠ '/') :
    pyFind [c] ("https://www.linkedin.com/in/".data ++ un ++ ['/']) 28 = none := by
  unfold pyFind
  rw [drop28_profileUrl un]
  refine pyFindAux_singleton_none c (un ++ ['/']) ?_ 28
  intro hm
  rcases List.mem_append.mp hm with hm | hm
  · exact not_mem_of_all_usernameChar hall hc hm
  · rcases List.mem_cons.mp hm with hm | hm
    · exact hcs hm
    · exact absurd hm (List.not_mem_nil c)

/-- The delimiter loop ends the username exactly at the trailing slash. -/
theorem cleanProfileEnd_profileUrl (un : List Char) (hall : un.all usernameChar = true) :
    cleanProfileEnd ("https://www.linkedin.com/in/".data ++ un ++ ['/']) 28 =
      28 + un.length := by
  have hlen : ("https://www.linkedin.com/in/".data ++ un ++ ['/']).length =
      28 + un.length + 1 := by
    rw [List.length_append, List.length_append]
    rw [show ("https://www.linkedin.com/in/".data).length = 28 from rfl]
    simp
  unfold cleanProfileEnd cleanDelims
  rw [hlen]
  simp only [List.foldl_cons, List.foldl_nil,
    find_delim_slash_profileUrl un hall,
    find_delim_none_profileUrl un hall '?' (by decide) (by decide),
    find_delim_none_profileUrl un hall '&' (by decide) (by decide),
    find_delim_none_profileUrl un hall '#' (by decide) (by decide),
    find_delim_none_profileUrl un hall ' ' (by decide) (by decide),
    find_delim_none_profileUrl un hall '"' (by decide) (by decide),
    find_delim_none_profileUrl un hall '+' (by decide) (by decide)]
  split <;> omega

/-- The username extractor recovers exactly the username from a rebuilt
canonical profile URL. -/
theorem cleanExtractUser_profileUrl (un : List Char) (hall : un.all usernameChar = true)
    (hlen : 2 ≤ un.length) :
    cleanExtractUser ("https://www.linkedin.com/in/".data ++ un ++ ['/']) = some un := by
  have hps : cleanProfileStart ("https://www.linkedin.com/in/".data ++ un ++ ['/']) 12 = 28 := by
    unfold cleanProfileStart
    rw [find_slash_in_profileUrl un]
  have hfilter : un.filter usernameChar = un :=
    List.filter_eq_self.mpr (fun a ha => List.all_eq_true.mp hall a ha)
  have hnil : un ≠ [] := by
    intro h
    rw [h] at hlen
    simp at hlen
  have hq : ¬['?'].isPrefixOf un = true := fun hpre =>
    not_mem_of_all_usernameChar hall (by decide) (mem_of_isPrefixOf hpre '?' (by simp))
  have hpl : ¬['+'].isPrefixOf un = true := fun hpre =>
    not_mem_of_all_usernameChar hall (by decide) (mem_of_isPrefixOf hpre '+' (by simp))
  have hpc : ¬['%'].isPrefixOf un = true := fun hpre =>
    not_mem_of_all_usernameChar hall (by decide) (mem_of_isPrefixOf hpre '%' (by simp))
  simp only [cleanExtractUser, find_marker_profileUrl un, hps,
    cleanProfileEnd_profileUrl un hall, Nat.add_sub_cancel_left, drop28_profileUrl un]
  rw [show un.length = un.length from rfl, List.take_left, hfilter]
  rw [if_pos ⟨hnil, hq, hpl, hpc, hlen⟩]

/-- Canonicalization returns a rebuilt URL unchanged: applying
`_clean_linkedin_url` to its own successful output is the identity. -/
theorem clean_roundtrip (un : List Char) (hall : un.all usernameChar = true)
    (hlen : 2 ≤ un.length) :
    _clean_linkedin_url (profileUrlOf un) = some (profileUrlOf un) := by
  have hne : (profileUrlOf un).data ≠ [] := by
    rw [show (profileUrlOf un).data = "https://www.linkedin.com/in/".data ++ un ++ ['/'] from rfl]
    intro h
    have := congrArg List.length h
    rw [List.length_append, List.length_append] at this
    simp at this
  unfold _clean_linkedin_url
  rw [if_neg hne, cleanStripped_profileUrl hall]
  simp only [cleanExtractUser_profileUrl un hall hlen]

/-- Every successful extraction is a sanitized username of length at least
two. -/
theorem cleanExtractUser_some {u un : List Char} (h : cleanExtractUser u = some un) :
    un.all usernameChar = true ∧ 2 ≤ un.length := by
  simp only [cleanExtractUser] at h
  split at h
  · exact absurd h (by simp)
  · split at h
    · rename_i hcond
      obtain ⟨-, -, -, -, hlen2⟩ := hcond
      injection h with h
      subst h
      exact ⟨List.all_eq_true.mpr (fun a ha => List.of_mem_filter ha), hlen2⟩
    · exact absurd h (by simp)

/-- Every successful canonicalization result is a rebuilt canonical URL over
a sanitized username of length at least two. -/
theorem clean_some_shape {url u : String} (h : _clean_linkedin_url url = some u) :
    ∃ un, u = profileUrlOf un ∧ un.all usernameChar = true ∧ 2 ≤ un.length := by
  unfold _clean_linkedin_url at h
  split at h
  · exact absurd h (by simp)
  · cases hx : cleanExtractUser (cleanStripped url) with
    | none => rw [hx] at h; exact absurd h (by simp)
    | some un =>
      rw [hx] at h
      simp only [Option.some.injEq] at h
      exact ⟨un, h.symm, (cleanExtractUser_some hx).1, (cleanExtractUser_some hx).2⟩

/-- C6: candidate-identifier canonicalization is idempotent — for every input
(including a previously rejected/None candidate), applying
`_clean_linkedin_url` to its own output yields the same result as applying it
once. -/
theorem canonicalization_idempotent (x : Option String) :
    canonicalizeOpt (canonicalizeOpt x) = canonicalizeOpt x := by
  cases x with
  | none => rfl
  | some s =>
    simp only [canonicalizeOpt, Option.some_bind]
    cases h : _clean_linkedin_url s with
    | none => rfl
    | some u =>
      simp only [Option.some_bind]
      obtain ⟨un, rfl, hall, hlen⟩ := clean_some_shape h
      exact clean_roundtrip un hall hlen

/-- C7 counterexample: the raw candidate
`"/url?q=https%3A%2F%2Fexample.com%2Fin%2Fjdoe%26sa%3DU"` does NOT
canonicalize to `jdoe`: after the redirector unwrap and percent-decoding the
unwrapped URL reads `https://example.com/in/jdoe&sa=U`, which fails the
`'linkedin.com/in/'` domain check, so the extraction pipeline — and the
canonicalizer applied to the raw string directly — both produce nothing. -/
theorem redirect_unwrap_counterexample :
    extract_redirect_candidate "/url?q=https%3A%2F%2Fexample.com%2Fin%2Fjdoe%26sa%3DU" = none ∧
    _clean_linkedin_url "/url?q=https%3A%2F%2Fexample.com%2Fin%2Fjdoe%26sa%3DU" = none := by
  decide

/-- C7 amended: for a redirector-wrapped candidate whose unwrapped host is
`www.linkedin.com` — `"/url?q=https%3A%2F%2Fwww.linkedin.com%2Fin%2Fjdoe%26sa%3DU"`
— the pipeline produces the canonical identifier `jdoe` (as the rebuilt URL
`https://www.linkedin.com/in/jdoe/`) after one redirector unwrap, one
percent-decoding, and truncation at the first delimiter (`'&'`). -/
theorem redirect_unwrap_amended :
    extract_redirect_candidate "/url?q=https%3A%2F%2Fwww.linkedin.com%2Fin%2Fjdoe%26sa%3DU" =
      some "https://www.linkedin.com/in/jdoe/" ∧
    cleanExtractUser (cleanStripped "https://www.linkedin.com/in/jdoe&sa=U") =
      some ['j', 'd', 'o', 'e'] ∧
    pyUnquoteL "https%3A%2F%2Fwww.linkedin.com%2Fin%2Fjdoe%26sa%3DU".data =
      "https://www.linkedin.com/in/jdoe&sa=U".data := by
  decide
